import Mathlib

/-!
Verification of the Map Poster API (`src/main.py`) against its
natural-language specification.

The service is a FastAPI app with four GET endpoints; the claims concern
`/generate` (`generate_poster`, lines 56-119) and `/preview`
(`preview_poster`, lines 122-151).  The collaborators imported from
`create_map_poster` (`load_theme`, `get_coordinates`, `create_poster`) are
external to this repository, so they are modelled as oracles: arbitrary
functions that either return a value or raise a Python exception.

Python exceptions are modelled by the inductive `PyExc`.  Two facts of the
host framework that the embedding relies on:
  * `fastapi.HTTPException` derives (via Starlette) from `Exception`, so a
    bare `except Exception` clause catches it;
  * Starlette's `HTTPException.__str__` returns `"{status_code}: {detail}"`,
    and an `HTTPException` that escapes the handler is turned by the
    framework into a response with that status code and detail, while any
    other escaping exception becomes a plain 500 "Internal Server Error".

FastAPI validates query parameters declared with `Query(..., ge=, le=)`
before the handler body runs; `parseGenParams` embeds exactly the
declarations of lines 56-66 (required `city`/`country`, defaults
`theme="noir"`, `distance=5000`, `width=12`, `height=16`, bounds
`distance ∈ [1000,20000]`, `width ∈ [6,24]`, `height ∈ [8,32]`).

Each handler is embedded as a function returning a pair of
  * a `Trace`: the ordered list of collaborator calls and file operations
    that the request performed, and
  * the handler outcome (`Except PyExc Response`),
so that claims about "collaborator never called" and about the temporary
artifact's lifecycle are statements about the trace.
-/

/-- The ASCII apostrophe character, used in several message strings of the
source (for example the theme-not-found detail). -/
def squote : String := String.mk [Char.ofNat 39]

/-- Python exceptions as far as `main.py` distinguishes them: `ValueError`
(raised by the geocoding collaborator for an unresolvable place),
`fastapi.HTTPException` (carrying a status code and a detail string), and
any other exception, carried with its message. -/
inductive PyExc where
  | valueError (msg : String)
  | httpException (status : Nat) (detail : String)
  | otherError (msg : String)
  deriving Repr, DecidableEq

/-- Python `str(e)` for the modelled exceptions.  `str` of a `ValueError`
or a generic exception is its message; Starlette's
`HTTPException.__str__` is `"{status_code}: {detail}"`. -/
def pyStr : PyExc → String
  | PyExc.valueError m => m
  | PyExc.httpException s d => toString s ++ ": " ++ d
  | PyExc.otherError m => m

/-- A theme descriptor as the handler uses it: a dict from which only the
`"description"` key is read (`theme_data.get("description", "")`); the key
may be absent. -/
structure ThemeData where
  description : Option String
  deriving Repr, DecidableEq

/-- Coordinates returned by the geocoding collaborator: a
(latitude, longitude) pair.  The handler performs no arithmetic on them,
only tuple projection, so the numeric type is taken as `Rat`. -/
abbrev Coordinates := Rat × Rat

/-- The keyword arguments of the `create_poster(...)` call at
lines 87-98 of `main.py`. -/
structure RenderArgs where
  city : String
  country : String
  point : Coordinates
  dist : Int
  output_file : String
  output_format : String
  width : Int
  height : Int
  display_city : Option String
  display_country : Option String
  deriving Repr, DecidableEq

/-- The external collaborators (functions imported from
`create_map_poster`) together with the temporary-file name that
`tempfile.NamedTemporaryFile` yields for this request.  Each collaborator
may raise an exception instead of returning. -/
structure Collab where
  load_theme : String → Except PyExc (Option ThemeData)
  get_coordinates : String → String → Except PyExc Coordinates
  create_poster : RenderArgs → Except PyExc Unit
  readFile : String → Except PyExc (List Nat)
  tmpPath : String

/-- Observable steps of one request: collaborator calls and
temporary-file operations, in the order they happen. -/
inductive Event where
  | loadThemeCall (name : String)
  | geocodeCall (city country : String)
  | tmpCreate (path : String)
  | renderCall (args : RenderArgs)
  | fileRead (path : String)
  | unlink (path : String)
  deriving Repr, DecidableEq

abbrev Trace := List Event

/-- The structured body returned by `/preview` on success
(lines 137-148 of `main.py`). -/
structure PreviewInfo where
  city : String
  country : String
  latitude : Rat
  longitude : Rat
  theme_name : String
  theme_description : String
  deriving Repr, DecidableEq

/-- A successful handler return value: either the `StreamingResponse`
of `/generate` (body bytes, media type, headers) or the JSON record of
`/preview`. -/
inductive Response where
  | streaming (body : List Nat) (media_type : String)
      (headers : List (String × String))
  | previewJson (info : PreviewInfo)
  deriving Repr, DecidableEq

/-- The query parameters of `generate_poster` after FastAPI validation
(lines 57-65 of `main.py`). -/
structure GenParams where
  city : String
  country : String
  theme : String
  distance : Int
  display_city : Option String
  display_country : Option String
  width : Int
  height : Int
  deriving Repr, DecidableEq

/-- The query parameters of `preview_poster` after FastAPI validation
(lines 123-126 of `main.py`). -/
structure PreviewParams where
  city : String
  country : String
  theme : String
  deriving Repr, DecidableEq

/-- A raw query string for either endpoint: each parameter present or
absent, numeric ones already parsed to integers. -/
structure RawQuery where
  city : Option String
  country : Option String
  theme : Option String
  distance : Option Int
  display_city : Option String
  display_country : Option String
  width : Option Int
  height : Option Int
  deriving Repr, DecidableEq

/-- FastAPI parameter validation for `/generate`, from the `Query`
declarations of lines 57-65: `city` and `country` required; defaults
`theme="noir"`, `distance=5000`, `width=12`, `height=16`; bounds
`1000 ≤ distance ≤ 20000`, `6 ≤ width ≤ 24`, `8 ≤ height ≤ 32`.
`none` means the request is rejected before the handler body runs. -/
def parseGenParams (q : RawQuery) : Option GenParams :=
  match q.city, q.country with
  | some city, some country =>
      let theme := q.theme.getD "noir"
      let distance := q.distance.getD 5000
      let width := q.width.getD 12
      let height := q.height.getD 16
      if 1000 ≤ distance ∧ distance ≤ 20000 ∧ 6 ≤ width ∧ width ≤ 24 ∧
          8 ≤ height ∧ height ≤ 32 then
        some { city := city, country := country, theme := theme,
               distance := distance, display_city := q.display_city,
               display_country := q.display_country,
               width := width, height := height }
      else none
  | _, _ => none

/-- FastAPI parameter validation for `/preview` (lines 123-126): `city`
and `country` required, `theme` defaults to `"noir"`; the other query
parameters are not declared and are ignored. -/
def parsePreviewParams (q : RawQuery) : Option PreviewParams :=
  match q.city, q.country with
  | some city, some country =>
      some { city := city, country := country, theme := q.theme.getD "noir" }
  | _, _ => none

/-- The detail string of line 76: `f"Theme '{theme}' not found"`. -/
def themeNotFoundMsg (theme : String) : String :=
  "Theme " ++ squote ++ theme ++ squote ++ " not found"

/-- The message of the `AttributeError` raised by
`theme_data.get("description", "")` when `load_theme` returned `None`
(line 146 of `main.py`, reached on `/preview` with an unknown theme). -/
def noneGetMsg : String :=
  squote ++ "NoneType" ++ squote ++ " object has no attribute " ++
    squote ++ "get" ++ squote

/-- The `Content-Disposition` header value of line 112:
`f"attachment; filename={city.lower()}_{theme}_poster.png"`. -/
def attachmentHeader (city theme : String) : String :=
  "attachment; filename=" ++ city.toLower ++ "_" ++ theme ++ "_poster.png"

/-- The `create_poster(...)` keyword arguments built at lines 87-98:
`output_format` is the literal `"png"`. -/
def renderArgsOf (p : GenParams) (coords : Coordinates) (path : String) :
    RenderArgs :=
  { city := p.city, country := p.country, point := coords,
    dist := p.distance, output_file := path, output_format := "png",
    width := p.width, height := p.height,
    display_city := p.display_city, display_country := p.display_country }

/-- The `try` block of `generate_poster` (lines 72-114): load the theme,
reject a missing one with `HTTPException(400, ...)` (which, being raised
inside the `try`, surfaces as an exception to the surrounding `except`
clauses), geocode, create the temporary file, render, read the bytes
back, unlink the file, and return the streaming response.  The first
component is the trace of collaborator calls and file operations
performed before the block returned or raised. -/
def generate_try (c : Collab) (p : GenParams) :
    Trace × Except PyExc Response :=
  match c.load_theme p.theme with
  | Except.error e => ([Event.loadThemeCall p.theme], Except.error e)
  | Except.ok none =>
      ([Event.loadThemeCall p.theme],
        Except.error (PyExc.httpException 400 (themeNotFoundMsg p.theme)))
  | Except.ok (some _theme_data) =>
      match c.get_coordinates p.city p.country with
      | Except.error e =>
          ([Event.loadThemeCall p.theme,
            Event.geocodeCall p.city p.country], Except.error e)
      | Except.ok coords =>
          let output_path := c.tmpPath
          let args := renderArgsOf p coords output_path
          match c.create_poster args with
          | Except.error e =>
              ([Event.loadThemeCall p.theme,
                Event.geocodeCall p.city p.country,
                Event.tmpCreate output_path,
                Event.renderCall args], Except.error e)
          | Except.ok _ =>
              match c.readFile output_path with
              | Except.error e =>
                  ([Event.loadThemeCall p.theme,
                    Event.geocodeCall p.city p.country,
                    Event.tmpCreate output_path,
                    Event.renderCall args,
                    Event.fileRead output_path], Except.error e)
              | Except.ok image_data =>
                  ([Event.loadThemeCall p.theme,
                    Event.geocodeCall p.city p.country,
                    Event.tmpCreate output_path,
                    Event.renderCall args,
                    Event.fileRead output_path,
                    Event.unlink output_path],
                    Except.ok (Response.streaming image_data "image/png"
                      [("Content-Disposition",
                        attachmentHeader p.city p.theme)]))

/-- The whole `generate_poster` handler body (lines 72-119): the `try`
block followed by `except ValueError as e: raise HTTPException(400,
str(e))` and `except Exception as e: raise HTTPException(500, "Error
generating poster: " + str(e))`.  Note that an `HTTPException` raised
inside the `try` block (the theme-not-found case of line 76) is itself
an `Exception`, so the second clause catches it and wraps it in a 500. -/
def generate_handler (c : Collab) (p : GenParams) :
    Trace × Except PyExc Response :=
  let res := generate_try c p
  (res.1,
    match res.2 with
    | Except.ok r => Except.ok r
    | Except.error (PyExc.valueError m) =>
        Except.error (PyExc.httpException 400 m)
    | Except.error e =>
        Except.error (PyExc.httpException 500
          ("Error generating poster: " ++ pyStr e)))

/-- The `try` block of `preview_poster` (lines 133-148): geocode first,
then load the theme, then build the JSON record.  There is no check that
`load_theme` found the theme: when it returns `None`,
`theme_data.get("description", "")` raises an `AttributeError`. -/
def preview_try (c : Collab) (p : PreviewParams) :
    Trace × Except PyExc Response :=
  match c.get_coordinates p.city p.country with
  | Except.error e =>
      ([Event.geocodeCall p.city p.country], Except.error e)
  | Except.ok coords =>
      match c.load_theme p.theme with
      | Except.error e =>
          ([Event.geocodeCall p.city p.country,
            Event.loadThemeCall p.theme], Except.error e)
      | Except.ok none =>
          ([Event.geocodeCall p.city p.country,
            Event.loadThemeCall p.theme],
            Except.error (PyExc.otherError noneGetMsg))
      | Except.ok (some theme_data) =>
          ([Event.geocodeCall p.city p.country,
            Event.loadThemeCall p.theme],
            Except.ok (Response.previewJson
              { city := p.city, country := p.country,
                latitude := coords.1, longitude := coords.2,
                theme_name := p.theme,
                theme_description := theme_data.description.getD "" }))

/-- The whole `preview_poster` handler body (lines 133-150): only
`ValueError` is caught (and re-raised as `HTTPException(400, str(e))`);
every other exception propagates out of the handler. -/
def preview_handler (c : Collab) (p : PreviewParams) :
    Trace × Except PyExc Response :=
  let res := preview_try c p
  (res.1,
    match res.2 with
    | Except.error (PyExc.valueError m) =>
        Except.error (PyExc.httpException 400 m)
    | r => r)

/-- The HTTP response the client sees. -/
inductive HTTPResponse where
  | success (r : Response)
  | errorJson (status : Nat) (detail : String)
  | validationReject
  deriving Repr, DecidableEq

/-- Status code of a response: a handler return is a 200, a raised
`HTTPException` carries its own status, and FastAPI's parameter
validation rejects with 422 Unprocessable Entity. -/
def HTTPResponse.statusOf : HTTPResponse → Nat
  | HTTPResponse.success _ => 200
  | HTTPResponse.errorJson s _ => s
  | HTTPResponse.validationReject => 422

/-- How the framework turns a handler outcome into an HTTP response: a
raised `HTTPException` becomes a structured error response with its
status and detail; any other escaping exception becomes a plain
500 "Internal Server Error". -/
def frameworkWrap : Except PyExc Response → HTTPResponse
  | Except.ok r => HTTPResponse.success r
  | Except.error (PyExc.httpException s d) => HTTPResponse.errorJson s d
  | Except.error _ => HTTPResponse.errorJson 500 "Internal Server Error"

/-- `GET /generate` end to end: FastAPI parameter validation, then the
handler, then the framework's exception-to-response mapping.  A request
rejected by validation produces an empty trace: no collaborator runs. -/
def generate_endpoint (c : Collab) (q : RawQuery) : Trace × HTTPResponse :=
  match parseGenParams q with
  | none => ([], HTTPResponse.validationReject)
  | some p =>
      ((generate_handler c p).1, frameworkWrap (generate_handler c p).2)

/-- `GET /preview` end to end. -/
def preview_endpoint (c : Collab) (q : RawQuery) : Trace × HTTPResponse :=
  match parsePreviewParams q with
  | none => ([], HTTPResponse.validationReject)
  | some p =>
      ((preview_handler c p).1, frameworkWrap (preview_handler c p).2)

/-! ### Concrete fixtures used by counterexamples and witnesses -/

/-- A descriptor for the built-in `"noir"` theme. -/
def themeNoir : ThemeData := { description := some "High contrast monochrome" }

/-- A geocoding failure message, as the collaborator would word it. -/
def geoFailMsg : String := "Could not find coordinates for Nowhere123, Nowhere"

/-- Collaborators for which every call succeeds and the theme store
contains exactly `"noir"`. -/
def collabOk : Collab :=
  { load_theme := fun name =>
      if name = "noir" then Except.ok (some themeNoir) else Except.ok none,
    get_coordinates := fun _ _ => Except.ok (25, 121),
    create_poster := fun _ => Except.ok (),
    readFile := fun _ => Except.ok [137, 80, 78, 71],
    tmpPath := "/tmp/tmp123.png" }

/-- Same as `collabOk` but the rendering collaborator raises. -/
def collabRenderFail : Collab :=
  { collabOk with
    create_poster := fun _ =>
      Except.error (PyExc.otherError "rendering backend failed") }

/-- Same as `collabOk` but geocoding raises `ValueError`. -/
def collabGeoFail : Collab :=
  { collabOk with
    get_coordinates := fun _ _ =>
      Except.error (PyExc.valueError geoFailMsg) }

/-- A fully explicit valid `/generate` query. -/
def qValid : RawQuery :=
  { city := some "Taipei", country := some "Taiwan", theme := some "noir",
    distance := some 5000, display_city := none, display_country := none,
    width := some 12, height := some 16 }

/-- The same query with an unknown theme name. -/
def qUnknownTheme : RawQuery := { qValid with theme := some "doesnotexist" }

/-- The same query with `distance` below its lower bound. -/
def qBadDistance : RawQuery := { qValid with distance := some 999 }

/-- Validated `/generate` parameters matching `qValid`. -/
def pValid : GenParams :=
  { city := "Taipei", country := "Taiwan", theme := "noir", distance := 5000,
    display_city := none, display_country := none, width := 12, height := 16 }

/-- `pValid` with an unknown theme name. -/
def pUnknownTheme : GenParams := { pValid with theme := "doesnotexist" }

/-- `pValid` with an unresolvable place. -/
def pNowhere : GenParams :=
  { pValid with city := "Nowhere123", country := "Nowhere" }

/-- Validated `/preview` parameters for an unresolvable place. -/
def ppNowhere : PreviewParams :=
  { city := "Nowhere123", country := "Nowhere", theme := "noir" }

/-- Validated `/preview` parameters for Taipei with the `"noir"` theme. -/
def ppValid : PreviewParams :=
  { city := "Taipei", country := "Taiwan", theme := "noir" }

/-! ### Claims -/

/-- Claim C9: a `/generate` request that omits the optional parameters gets
theme `"noir"`, distance `5000`, width `12`, height `16`, and absent
`display_city`/`display_country`; a `/preview` request that omits `theme`
likewise gets `"noir"`. -/
theorem generate_preview_defaults (city country : String) :
    parseGenParams
      { city := some city, country := some country, theme := none,
        distance := none, display_city := none, display_country := none,
        width := none, height := none } =
      some { city := city, country := country, theme := "noir",
             distance := 5000, display_city := none, display_country := none,
             width := 12, height := 16 } ∧
    parsePreviewParams
      { city := some city, country := some country, theme := none,
        distance := none, display_city := none, display_country := none,
        width := none, height := none } =
      some { city := city, country := country, theme := "noir" } := by
  constructor <;> rfl

/-- Claim C6: a `/generate` request with `distance` outside `[1000, 20000]`,
`width` outside `[6, 24]`, or `height` outside `[8, 32]` is rejected by the
parameter boundary: the handler body never runs and no collaborator is
called (the trace is empty). -/
theorem generate_endpoint_parse_none (c : Collab) (q : RawQuery)
    (hp : parseGenParams q = none) :
    generate_endpoint c q = ([], HTTPResponse.validationReject) := by
  simp [generate_endpoint, hp]

theorem bounds_rejected_before_collaborators (c : Collab) (q : RawQuery) :
    (∀ d : Int, q.distance = some d → (d < 1000 ∨ 20000 < d) →
      generate_endpoint c q = ([], HTTPResponse.validationReject)) ∧
    (∀ w : Int, q.width = some w → (w < 6 ∨ 24 < w) →
      generate_endpoint c q = ([], HTTPResponse.validationReject)) ∧
    (∀ k : Int, q.height = some k → (k < 8 ∨ 32 < k) →
      generate_endpoint c q = ([], HTTPResponse.validationReject)) := by
  obtain ⟨c1, c2, t, dq, a1, a2, wq, kq⟩ := q
  refine ⟨?_, ?_, ?_⟩
  · intro v hv hout
    have hv' : dq = some v := hv
    subst hv'
    apply generate_endpoint_parse_none
    cases c1 with
    | none => rfl
    | some city =>
      cases c2 with
      | none => rfl
      | some country =>
        simp only [parseGenParams, Option.getD_some]
        rw [if_neg]
        omega
  · intro v hv hout
    have hv' : wq = some v := hv
    subst hv'
    apply generate_endpoint_parse_none
    cases c1 with
    | none => rfl
    | some city =>
      cases c2 with
      | none => rfl
      | some country =>
        simp only [parseGenParams, Option.getD_some]
        rw [if_neg]
        omega
  · intro v hv hout
    have hv' : kq = some v := hv
    subst hv'
    apply generate_endpoint_parse_none
    cases c1 with
    | none => rfl
    | some city =>
      cases c2 with
      | none => rfl
      | some country =>
        simp only [parseGenParams, Option.getD_some]
        rw [if_neg]
        omega

/-- Witness for C6 at a concrete request: `distance = 999` is rejected
with an empty trace. -/
theorem bounds_rejected_before_collaborators_witness :
    generate_endpoint collabOk qBadDistance =
      ([], HTTPResponse.validationReject) :=
  (bounds_rejected_before_collaborators collabOk qBadDistance).1 999 rfl
    (Or.inl (by decide))

/-- Claim C10: inside the `/generate` handler body, a raised `ValueError`
is reported as a 400 whose detail is the exception's message, and every
other exception is reported as a 500 whose detail is
`"Error generating poster: "` followed by the exception's message. -/
theorem generate_exception_mapping (c : Collab) (p : GenParams) :
    (∀ m, (generate_try c p).2 = Except.error (PyExc.valueError m) →
      frameworkWrap (generate_handler c p).2 = HTTPResponse.errorJson 400 m) ∧
    (∀ e, (generate_try c p).2 = Except.error e →
      (∀ m, e ≠ PyExc.valueError m) →
      frameworkWrap (generate_handler c p).2 =
        HTTPResponse.errorJson 500
          ("Error generating poster: " ++ pyStr e)) := by
  constructor
  · intro m hm
    simp [generate_handler, hm, frameworkWrap]
  · intro e he hne
    cases e with
    | valueError m => exact absurd rfl (hne m)
    | httpException s d => simp [generate_handler, he, frameworkWrap]
    | otherError m => simp [generate_handler, he, frameworkWrap]

/-- Witness for C10: with geocoding raising
`ValueError(geoFailMsg)`, `/generate` responds 400 with that message. -/
theorem generate_exception_mapping_witness :
    frameworkWrap (generate_handler collabGeoFail pNowhere).2 =
      HTTPResponse.errorJson 400 geoFailMsg :=
  (generate_exception_mapping collabGeoFail pNowhere).1 geoFailMsg rfl

/-- Claim C4: when the geocoding collaborator raises `ValueError` — on
`/generate` after a successful theme lookup, or on `/preview` where
geocoding runs first — the response is a client error (400) carrying the
collaborator's message, never a server error. -/
theorem geocode_failure_client_error (c : Collab) (p : GenParams)
    (pp : PreviewParams) (m : String) :
    ((∃ td, c.load_theme p.theme = Except.ok (some td)) →
      c.get_coordinates p.city p.country =
        Except.error (PyExc.valueError m) →
      frameworkWrap (generate_handler c p).2 =
        HTTPResponse.errorJson 400 m) ∧
    (c.get_coordinates pp.city pp.country =
        Except.error (PyExc.valueError m) →
      frameworkWrap (preview_handler c pp).2 =
        HTTPResponse.errorJson 400 m) := by
  constructor
  · rintro ⟨td, hld⟩ hgeo
    simp [generate_handler, generate_try, hld, hgeo, frameworkWrap]
  · intro hgeo
    simp [preview_handler, preview_try, hgeo, frameworkWrap]

/-- Witness for C4: concrete geocoding failure gives a 400 with the
collaborator's message on both endpoints. -/
theorem geocode_failure_client_error_witness :
    frameworkWrap (generate_handler collabGeoFail pNowhere).2 =
      HTTPResponse.errorJson 400 geoFailMsg ∧
    frameworkWrap (preview_handler collabGeoFail ppNowhere).2 =
      HTTPResponse.errorJson 400 geoFailMsg :=
  ⟨(geocode_failure_client_error collabGeoFail pNowhere ppNowhere
      geoFailMsg).1 ⟨themeNoir, rfl⟩ rfl,
   (geocode_failure_client_error collabGeoFail pNowhere ppNowhere
      geoFailMsg).2 rfl⟩

/-- Claim C5: when theme lookup, geocoding, rendering, and file read-back
all succeed, `/generate` returns the bytes read from the artifact with
media type `image/png` and a `Content-Disposition` whose filename is the
lowercased city, an underscore, the theme name, and `_poster.png`. -/
theorem generate_success_response (c : Collab) (p : GenParams)
    (td : ThemeData) (coords : Coordinates) (bytes : List Nat) :
    c.load_theme p.theme = Except.ok (some td) →
    c.get_coordinates p.city p.country = Except.ok coords →
    c.create_poster (renderArgsOf p coords c.tmpPath) = Except.ok () →
    c.readFile c.tmpPath = Except.ok bytes →
    frameworkWrap (generate_handler c p).2 = HTTPResponse.success
      (Response.streaming bytes "image/png"
        [("Content-Disposition",
          "attachment; filename=" ++ p.city.toLower ++ "_" ++ p.theme ++
            "_poster.png")]) := by
  intro h1 h2 h3 h4
  simp [generate_handler, generate_try, h1, h2, h3, h4, frameworkWrap,
    attachmentHeader]

/-- Witness for C5 at the all-success collaborators and the Taipei/noir
request. -/
theorem generate_success_response_witness :
    frameworkWrap (generate_handler collabOk pValid).2 = HTTPResponse.success
      (Response.streaming [137, 80, 78, 71] "image/png"
        [("Content-Disposition",
          "attachment; filename=" ++ pValid.city.toLower ++ "_" ++
            pValid.theme ++ "_poster.png")]) :=
  generate_success_response collabOk pValid themeNoir (25, 121)
    [137, 80, 78, 71] rfl rfl rfl rfl

/-- Claim C7: when geocoding and theme lookup succeed, `/preview` returns
the structured record with the geocoder's latitude/longitude pair and the
descriptor's description (empty string when the key is absent), and the
request performs only the geocode and theme-lookup calls: no temporary
file and no render. -/
theorem preview_success_structure (c : Collab) (p : PreviewParams)
    (la lo : Rat) (td : ThemeData) :
    c.get_coordinates p.city p.country = Except.ok (la, lo) →
    c.load_theme p.theme = Except.ok (some td) →
    frameworkWrap (preview_handler c p).2 = HTTPResponse.success
      (Response.previewJson
        { city := p.city, country := p.country, latitude := la,
          longitude := lo, theme_name := p.theme,
          theme_description := td.description.getD "" }) ∧
    (preview_handler c p).1 =
      [Event.geocodeCall p.city p.country, Event.loadThemeCall p.theme] := by
  intro h1 h2
  constructor <;> simp [preview_handler, preview_try, h1, h2, frameworkWrap]

/-- Witness for C7 at the all-success collaborators. -/
theorem preview_success_structure_witness :
    frameworkWrap (preview_handler collabOk ppValid).2 = HTTPResponse.success
      (Response.previewJson
        { city := "Taipei", country := "Taiwan", latitude := 25,
          longitude := 121, theme_name := "noir",
          theme_description := themeNoir.description.getD "" }) ∧
    (preview_handler collabOk ppValid).1 =
      [Event.geocodeCall "Taipei" "Taiwan", Event.loadThemeCall "noir"] :=
  preview_success_structure collabOk ppValid 25 121 themeNoir rfl rfl

/-- The trace of a fully successful `/generate` request, used as the
canonical order of steps: theme lookup, geocode, temp-file creation,
render, read-back, unlink.  When geocoding fails the canonical trace
stops after the geocode call. -/
def generate_full_trace (c : Collab) (p : GenParams) : Trace :=
  match c.get_coordinates p.city p.country with
  | Except.error _ =>
      [Event.loadThemeCall p.theme, Event.geocodeCall p.city p.country]
  | Except.ok coords =>
      [Event.loadThemeCall p.theme, Event.geocodeCall p.city p.country,
       Event.tmpCreate c.tmpPath,
       Event.renderCall (renderArgsOf p coords c.tmpPath),
       Event.fileRead c.tmpPath, Event.unlink c.tmpPath]

/-- Claim C8: every `/generate` execution performs its steps in the order
theme lookup, geocode, render (its trace is an initial segment of the
canonical ordered trace); when the theme is unknown or theme loading
raises, the trace is just the theme lookup (geocoder and renderer never
run); when geocoding raises, the trace stops after the geocode call (the
renderer never runs). -/
theorem generate_step_order (c : Collab) (p : GenParams) :
    (∃ rest, (generate_handler c p).1 ++ rest = generate_full_trace c p) ∧
    (c.load_theme p.theme = Except.ok none ∨
        (∃ e, c.load_theme p.theme = Except.error e) →
      (generate_handler c p).1 = [Event.loadThemeCall p.theme]) ∧
    (∀ td e, c.load_theme p.theme = Except.ok (some td) →
      c.get_coordinates p.city p.country = Except.error e →
      (generate_handler c p).1 =
        [Event.loadThemeCall p.theme, Event.geocodeCall p.city p.country]) := by
  refine ⟨?_, ?_, ?_⟩
  · cases hl : c.load_theme p.theme with
    | error e =>
      cases hg : c.get_coordinates p.city p.country with
      | error e2 =>
        refine ⟨[Event.geocodeCall p.city p.country], ?_⟩
        simp [generate_handler, generate_try, generate_full_trace, hl, hg]
      | ok coords =>
        refine ⟨[Event.geocodeCall p.city p.country, Event.tmpCreate c.tmpPath,
          Event.renderCall (renderArgsOf p coords c.tmpPath),
          Event.fileRead c.tmpPath, Event.unlink c.tmpPath], ?_⟩
        simp [generate_handler, generate_try, generate_full_trace, hl, hg]
    | ok o =>
      cases o with
      | none =>
        cases hg : c.get_coordinates p.city p.country with
        | error e2 =>
          refine ⟨[Event.geocodeCall p.city p.country], ?_⟩
          simp [generate_handler, generate_try, generate_full_trace, hl, hg]
        | ok coords =>
          refine ⟨[Event.geocodeCall p.city p.country, Event.tmpCreate c.tmpPath,
            Event.renderCall (renderArgsOf p coords c.tmpPath),
            Event.fileRead c.tmpPath, Event.unlink c.tmpPath], ?_⟩
          simp [generate_handler, generate_try, generate_full_trace, hl, hg]
      | some td =>
        cases hg : c.get_coordinates p.city p.country with
        | error e2 =>
          refine ⟨[], ?_⟩
          simp [generate_handler, generate_try, generate_full_trace, hl, hg]
        | ok coords =>
          cases hr : c.create_poster (renderArgsOf p coords c.tmpPath) with
          | error e3 =>
            refine ⟨[Event.fileRead c.tmpPath, Event.unlink c.tmpPath], ?_⟩
            simp [generate_handler, generate_try, generate_full_trace, hl, hg, hr]
          | ok u =>
            cases hf : c.readFile c.tmpPath with
            | error e4 =>
              refine ⟨[Event.unlink c.tmpPath], ?_⟩
              simp [generate_handler, generate_try, generate_full_trace, hl, hg,
                hr, hf]
            | ok bytes =>
              refine ⟨[], ?_⟩
              simp [generate_handler, generate_try, generate_full_trace, hl, hg,
                hr, hf]
  · intro h
    rcases h with h | ⟨e, h⟩ <;>
      simp [generate_handler, generate_try, h]
  · intro td e h1 h2
    simp [generate_handler, generate_try, h1, h2]

/-- Witness for C8: with the theme store lacking `"doesnotexist"`, the
trace of the request is exactly the theme lookup. -/
theorem generate_step_order_witness :
    (generate_handler collabOk pUnknownTheme).1 =
      [Event.loadThemeCall "doesnotexist"] :=
  (generate_step_order collabOk pUnknownTheme).2.1 (Or.inl rfl)

/-- Validated `/preview` parameters with an unknown theme name. -/
def ppUnknown : PreviewParams :=
  { city := "Taipei", country := "Taiwan", theme := "doesnotexist" }

/-- Claim C1 (code bug): on `GET /generate?city=Taipei&country=Taiwan&
theme=doesnotexist`, line 76 raises `HTTPException(400, "Theme
'doesnotexist' not found")`, but since `HTTPException` derives from
`Exception`, the `except Exception` clause at line 118 catches it and
re-raises a 500 whose detail wraps the original message.  The client
therefore receives a server error, not the 400 the code itself (and the
spec) intend. -/
theorem generate_unknown_theme_is_server_error :
    (generate_endpoint collabOk qUnknownTheme).2 =
      HTTPResponse.errorJson 500
        ("Error generating poster: 400: " ++
          themeNotFoundMsg "doesnotexist") ∧
    HTTPResponse.statusOf (generate_endpoint collabOk qUnknownTheme).2 =
      500 := by
  constructor <;> rfl

/-- Counterexample to claim C2: with the rendering collaborator raising,
the temporary artifact is created but never unlinked — the handler
returns (a 500) with the file still on disk. -/
theorem generate_render_failure_leaks_artifact :
    Event.tmpCreate "/tmp/tmp123.png" ∈
      (generate_endpoint collabRenderFail qValid).1 ∧
    Event.unlink "/tmp/tmp123.png" ∉
      (generate_endpoint collabRenderFail qValid).1 := by
  constructor
  · decide
  · decide

/-- Amended claim C2: the temporary file is deleted before the handler
returns only on the success path; on every failure path where the file
was created (render failure or read-back failure) it is not deleted. -/
theorem generate_artifact_deleted_only_on_success (c : Collab)
    (p : GenParams) :
    (∀ r, (generate_handler c p).2 = Except.ok r →
      Event.unlink c.tmpPath ∈ (generate_handler c p).1) ∧
    (Event.tmpCreate c.tmpPath ∈ (generate_handler c p).1 →
      (∃ e, (generate_try c p).2 = Except.error e) →
      Event.unlink c.tmpPath ∉ (generate_handler c p).1) := by
  constructor
  · intro r hr
    cases hl : c.load_theme p.theme with
    | error e => cases e <;> simp [generate_handler, generate_try, hl] at hr
    | ok o =>
      cases o with
      | none => simp [generate_handler, generate_try, hl] at hr
      | some td =>
        cases hg : c.get_coordinates p.city p.country with
        | error e2 =>
          cases e2 <;> simp [generate_handler, generate_try, hl, hg] at hr
        | ok coords =>
          cases hrr : c.create_poster (renderArgsOf p coords c.tmpPath) with
          | error e3 =>
            cases e3 <;>
              simp [generate_handler, generate_try, hl, hg, hrr] at hr
          | ok u =>
            cases hf : c.readFile c.tmpPath with
            | error e4 =>
              cases e4 <;>
                simp [generate_handler, generate_try, hl, hg, hrr, hf] at hr
            | ok bytes =>
              simp [generate_handler, generate_try, hl, hg, hrr, hf]
  · intro hmem hex
    cases hl : c.load_theme p.theme with
    | error e => simp [generate_handler, generate_try, hl] at hmem
    | ok o =>
      cases o with
      | none => simp [generate_handler, generate_try, hl] at hmem
      | some td =>
        cases hg : c.get_coordinates p.city p.country with
        | error e2 => simp [generate_handler, generate_try, hl, hg] at hmem
        | ok coords =>
          cases hrr : c.create_poster (renderArgsOf p coords c.tmpPath) with
          | error e3 => simp [generate_handler, generate_try, hl, hg, hrr]
          | ok u =>
            cases hf : c.readFile c.tmpPath with
            | error e4 =>
              simp [generate_handler, generate_try, hl, hg, hrr, hf]
            | ok bytes =>
              obtain ⟨e, he⟩ := hex
              simp [generate_try, hl, hg, hrr, hf] at he

/-- Witness for the amended C2 on the success path: with all
collaborators succeeding, the unlink of the temporary file is in the
trace. -/
theorem generate_artifact_deleted_only_on_success_witness :
    Event.unlink collabOk.tmpPath ∈ (generate_handler collabOk pValid).1 :=
  (generate_artifact_deleted_only_on_success collabOk pValid).1
    (Response.streaming [137, 80, 78, 71] "image/png"
      [("Content-Disposition", attachmentHeader "Taipei" "noir")]) rfl

/-- Counterexample to claim C3: on `/preview` with an unknown theme name
(and a geocodable place) the response is a plain 500 Internal Server
Error, not a client error mentioning the theme name. -/
theorem preview_unknown_theme_is_server_error :
    (preview_endpoint collabOk qUnknownTheme).2 =
      HTTPResponse.errorJson 500 "Internal Server Error" ∧
    HTTPResponse.statusOf (preview_endpoint collabOk qUnknownTheme).2 =
      500 := by
  constructor <;> rfl

/-- Amended claim C3: `preview_poster` performs no theme-existence check;
when `load_theme` finds nothing, `theme_data.get("description", "")`
raises an `AttributeError`, which the handler does not catch (it catches
only `ValueError`), so the request ends in a server error that does not
mention the theme name. -/
theorem preview_unknown_theme_attribute_error (c : Collab)
    (p : PreviewParams) (coords : Coordinates) :
    c.get_coordinates p.city p.country = Except.ok coords →
    c.load_theme p.theme = Except.ok none →
    (preview_handler c p).2 = Except.error (PyExc.otherError noneGetMsg) ∧
    frameworkWrap (preview_handler c p).2 =
      HTTPResponse.errorJson 500 "Internal Server Error" := by
  intro h1 h2
  constructor <;> simp [preview_handler, preview_try, h1, h2, frameworkWrap]

/-- Witness for the amended C3 at concrete inputs. -/
theorem preview_unknown_theme_attribute_error_witness :
    (preview_handler collabOk ppUnknown).2 =
      Except.error (PyExc.otherError noneGetMsg) ∧
    frameworkWrap (preview_handler collabOk ppUnknown).2 =
      HTTPResponse.errorJson 500 "Internal Server Error" :=
  preview_unknown_theme_attribute_error collabOk ppUnknown (25, 121) rfl rfl
